import Mathlib

/-!
# Verification of the document-processor frontend

A shallow embedding of the React frontend of the document-processor
repository, centred on the API client (`src/frontend/src/services/api.js`)
and the page-level handlers of `DocumentUpload.js`, `QuestionAnswering.js`
and `DocumentSimilarity.js`.  Axios requests are modelled by their outcome:
a value of `Except AxiosError α` is the result the underlying HTTP call
would deliver, and each API-client function is the pure transformation the
JavaScript code applies to that outcome.  JavaScript string truthiness is
modelled by `Option String` (with `some ""` falsy where the code tests
truthiness of the contained string).
-/

namespace DocProcessor

/-- The shape of an axios error object, as consulted by the client code:
`error.code`, `error.message`, `error.response` (with `status`,
`statusText` and `data.detail`) and the presence of `error.request`. -/
structure ErrResponse where
  status : Nat
  statusText : String
  detail : Option String
deriving DecidableEq, Repr

structure AxiosError where
  code : Option String
  message : String
  response : Option ErrResponse
  hasRequest : Bool
deriving DecidableEq, Repr

/-- JavaScript `a || b || c` over an optional string `a` and strings `b`,
`c`: the first truthy (present and non-empty) value wins. -/
def firstTruthy (a : Option String) (b c : String) : String :=
  match a with
  | some s => if s = "" then (if b = "" then c else b) else s
  | none => if b = "" then c else b

/-- `error.response?.data?.detail || error.message || fallback`, the value
thrown by every mutating session/folder operation of the API client. -/
def throwDetail (e : AxiosError) (fallback : String) : String :=
  firstTruthy (e.response.bind (fun r => r.detail)) e.message fallback

/-- Document metadata as returned by the backend. -/
structure Document where
  id : String
  filename : String
  folder : Option String
  source : String
  description : String
deriving DecidableEq, Repr

/-- Response shape of `GET /folders`. -/
structure FoldersResponse where
  folders : List String
  master_bucket : String
deriving DecidableEq, Repr

/-- A session record as returned by the backend. -/
structure Session where
  id : String
  name : String
  similarity_threshold : ℚ
  custom_prompt : String
  prompt_model : String
deriving DecidableEq, Repr

/-! ## The API client (`src/frontend/src/services/api.js`) -/

/-- The multipart form body built by `uploadDocument`:
`file`, `source_name` and `folder` are always appended; `description`
only when truthy (a non-empty string). -/
structure UploadForm where
  file : String
  source_name : String
  folder : String
  description : Option String
deriving DecidableEq, Repr

def uploadDocumentForm (file sourceName folder description : String) :
    UploadForm :=
  { file := file
    source_name := sourceName
    folder := folder
    description := if description = "" then none else some description }

/-- `uploadDocument` has no try/catch: the axios outcome is returned (or
thrown) unchanged. -/
def uploadDocument (resp : Except AxiosError Document) :
    Except AxiosError Document := resp

/-- `listDocuments`: a failed request is swallowed and becomes `[]`. -/
def listDocuments (resp : Except AxiosError (List Document)) :
    Except AxiosError (List Document) :=
  match resp with
  | .ok d => .ok d
  | .error _ => .ok []

/-- `deleteDocument` has no try/catch: the axios outcome propagates. -/
def deleteDocument (resp : Except AxiosError Unit) :
    Except AxiosError Unit := resp

/-- `getFolders`: a failed request becomes
`{folders: [], master_bucket: 'unknown'}`. -/
def getFolders (resp : Except AxiosError FoldersResponse) :
    Except AxiosError FoldersResponse :=
  match resp with
  | .ok d => .ok d
  | .error _ => .ok { folders := [], master_bucket := "unknown" }

/-- `createFolder`: on failure throws
`error.response?.data?.detail || error.message || 'Error creating folder'`. -/
def createFolder (resp : Except AxiosError Unit) : Except String Unit :=
  match resp with
  | .ok d => .ok d
  | .error e => .error (throwDetail e "Error creating folder")

/-- `deleteFolder`: same propagation pattern as `createFolder`. -/
def deleteFolder (resp : Except AxiosError Unit) : Except String Unit :=
  match resp with
  | .ok d => .ok d
  | .error e => .error (throwDetail e "Error deleting folder")

/-- The JSON body `createSession` posts to `/api/sessions`.  The JS
default parameters (`description = ''`, `similarityThreshold = 0.7`,
`customPrompt = ''`, `promptModel = 'gpt-3.5-turbo'`) are modelled by
`Option` arguments, `none` meaning the argument was omitted. -/
structure SessionPayload where
  name : String
  description : String
  similarity_threshold : ℚ
  custom_prompt : String
  prompt_model : String
deriving DecidableEq, Repr

def createSessionPayload (name : String) (description : Option String)
    (similarityThreshold : Option ℚ) (customPrompt : Option String)
    (promptModel : Option String) : SessionPayload :=
  { name := name
    description := description.getD ""
    similarity_threshold := similarityThreshold.getD (7 / 10)
    custom_prompt := customPrompt.getD ""
    prompt_model := promptModel.getD "gpt-3.5-turbo" }

/-- `createSession`: on failure throws the detail/message/fallback chain. -/
def createSession (resp : Except AxiosError Session) :
    Except String Session :=
  match resp with
  | .ok d => .ok d
  | .error e => .error (throwDetail e "Error creating session")

/-- `listSessions`: a failed request is swallowed and becomes `[]`. -/
def listSessions (resp : Except AxiosError (List Session)) :
    Except AxiosError (List Session) :=
  match resp with
  | .ok d => .ok d
  | .error _ => .ok []

/-- `updateSession`: on failure throws the detail/message/fallback chain. -/
def updateSession (resp : Except AxiosError Session) :
    Except String Session :=
  match resp with
  | .ok d => .ok d
  | .error e => .error (throwDetail e "Error updating session")

/-- `deleteSession`: on failure throws the detail/message/fallback chain. -/
def deleteSession (resp : Except AxiosError Unit) : Except String Unit :=
  match resp with
  | .ok d => .ok d
  | .error e => .error (throwDetail e "Error deleting session")

/-- `uploadDocumentToSession`: on failure throws the
detail/message/fallback chain. -/
def uploadDocumentToSession (resp : Except AxiosError Document) :
    Except String Document :=
  match resp with
  | .ok d => .ok d
  | .error e => .error (throwDetail e "Error uploading document to session")

/-! ## `askQuestion` -/

/-- The JSON body `askQuestion` posts to `/ask`: `question` and `model`
always; `document_ids` only when `documentIds && documentIds.length > 0`;
`folder` only when `folder` is truthy. -/
structure AskPayload where
  question : String
  model : String
  document_ids : Option (List String)
  folder : Option String
deriving DecidableEq, Repr

def askPayload (question : String) (documentIds : Option (List String))
    (folder : Option String) (model : String) : AskPayload :=
  { question := question
    model := model
    document_ids :=
      match documentIds with
      | some ids => if 0 < ids.length then some ids else none
      | none => none
    folder :=
      match folder with
      | some f => if f = "" then none else some f
      | none => none }

/-- JavaScript truthiness of an optional string value. -/
def isTruthyStr (o : Option String) : Bool :=
  match o with
  | some s => decide (s ≠ "")
  | none => false

/-- The message of the `Error` thrown by `askQuestion`'s catch block. -/
def askQuestionErrorMessage (e : AxiosError) : String :=
  if e.code = some "ECONNABORTED" then
    "The request timed out. This could be due to server load or an issue with the OpenAI API."
  else
    match e.response with
    | some r =>
        match r.detail with
        | some d =>
            if d = "" then
              "Error (" ++ toString r.status ++ "): " ++ r.statusText
            else d
        | none => "Error (" ++ toString r.status ++ "): " ++ r.statusText
    | none =>
        if e.hasRequest then
          "No response received from the server. The server may be down or the request timed out."
        else
          "Error: " ++ e.message

/-- `s` contains `sub` as a substring. -/
def containsStr (s sub : String) : Prop :=
  ∃ a b, s = a ++ sub ++ b

/-! ## `DocumentUpload.js` and `QuestionAnswering.js` folder filtering -/

/-- `CORE_FOLDERS` of `DocumentUpload.js`: folder names hidden from the
UI. -/
def CORE_FOLDERS : List String := ["metadata", "documents"]

/-- `fetchFolders` of `DocumentUpload.js`: keeps the folders not in
`CORE_FOLDERS`. -/
def duFilteredFolders (folders : List String) : List String :=
  folders.filter (fun folder => !(CORE_FOLDERS.contains folder))

/-- `fetchFolders` of `QuestionAnswering.js`: keeps the folders different
from both `'metadata'` and `'documents'`. -/
def qaUserFolders (folders : List String) : List String :=
  folders.filter (fun folder =>
    decide (folder ≠ "metadata") && decide (folder ≠ "documents"))

/-! ## Submit handlers (validation-first) -/

/-- State of the Question Answering page touched by `handleSubmit`. -/
structure QAState where
  question : String
  selectedFolder : String
  selectedModel : String
  answer : String
  error : String
  loading : Bool
deriving DecidableEq, Repr

/-- Outcome of the awaited `askQuestion` call as seen by the page:
a response carrying a truthy `answer`, a response without one, or a
thrown error. -/
inductive AskOutcome where
  | ok (answer : String)
  | okNoAnswer
  | err (msg : String)
deriving DecidableEq, Repr

/-- `handleSubmit` of `QuestionAnswering.js`.  Returns the state after the
handler together with whether the `askQuestion` request was issued. -/
def qaHandleSubmit (st : QAState) (outcome : AskOutcome) : QAState × Bool :=
  if st.question = "" then
    ({ st with error := "Please enter a question" }, false)
  else if st.selectedFolder = "" then
    ({ st with error := "Please select a folder" }, false)
  else
    let st1 := { st with loading := true, error := "", answer := "" }
    match outcome with
    | .ok ans => ({ st1 with answer := ans, loading := false }, true)
    | .okNoAnswer =>
        ({ st1 with
            error := "Received an empty or invalid response from the server"
            loading := false }, true)
    | .err m =>
        ({ st1 with
            error := if m = "" then "Error processing question" else m
            loading := false }, true)

/-- State of the Document Upload page touched by `handleSubmit`.  `file`
is `none` when no file is selected. -/
structure DUState where
  file : Option String
  fileName : String
  folder : String
  description : String
  error : String
  success : String
  uploading : Bool
deriving DecidableEq, Repr

/-- Outcome of the awaited `uploadDocument` call: success, a thrown
string, or a thrown non-string error. -/
inductive UploadOutcome where
  | ok
  | errStr (s : String)
  | errOther
deriving DecidableEq, Repr

/-- `handleSubmit` of `DocumentUpload.js`.  Returns the state after the
handler together with whether the `uploadDocument` request was issued. -/
def duHandleSubmit (st : DUState) (outcome : UploadOutcome) :
    DUState × Bool :=
  if st.file = none then
    ({ st with error := "Please select a file to upload" }, false)
  else if st.folder = "" then
    ({ st with error := "Please select a folder" }, false)
  else
    let st1 := { st with uploading := true, error := "", success := "" }
    match outcome with
    | .ok =>
        ({ st1 with
            success := "Document \x22" ++ st.fileName ++
              "\x22 uploaded successfully to " ++ st.folder
            file := none
            fileName := ""
            description := ""
            uploading := false }, true)
    | .errStr s =>
        ({ st1 with error := s, uploading := false }, true)
    | .errOther =>
        ({ st1 with error := "Failed to upload document", uploading := false },
          true)

/-- State of the Document Similarity page touched by `handleFileUpload`'s
validation prologue.  `error` and `success` are `Option` because the page
initialises and clears them with `null`. -/
structure DSState where
  file : Option String
  selectedSession : String
  error : Option String
  success : Option String
  uploading : Bool
deriving DecidableEq, Repr

/-- `handleFileUpload` of `DocumentSimilarity.js`, up to the point where
the upload request is issued: both validation branches set an error and
return; otherwise the handler enters the try block (uploading set, error
and success cleared) and performs the upload.  The boolean records
whether any API request was issued. -/
def dsHandleFileUpload (st : DSState) : DSState × Bool :=
  if st.file = none then
    ({ st with error := some "Please select a file to upload" }, false)
  else if st.selectedSession = "" then
    ({ st with error := some "Please select a session to upload to" }, false)
  else
    ({ st with uploading := true, error := none, success := none }, true)

/-! ## Similarity-threshold sources (`DocumentSimilarity.js`) -/

/-- The values the similarity-threshold slider can produce: `min = 0.5`,
`max = 0.95`, `step = 0.05` (both the range input and the MUI `Slider`
use these bounds), enumerated. -/
def sliderValues : List ℚ :=
  [0.5, 0.55, 0.6, 0.65, 0.7, 0.75, 0.8, 0.85, 0.9, 0.95]

/-- The values the page's `similarityThreshold` state can hold: the
initial `useState(0.7)` value or a slider value. -/
def thresholdReachable (v : ℚ) : Prop :=
  v = 7 / 10 ∨ v ∈ sliderValues

/-! ## Similarity logs (`DocumentSimilarity.js`) -/

/-- `addLog`: prepend the new entry and keep only the latest 50. -/
def addLog {α : Type} (log : α) (prevLogs : List α) : List α :=
  (log :: prevLogs).take 50

/-- The logs list after a sequence of `addLog` calls, starting from the
initial `useState([])` state. -/
def logsAfter {α : Type} (calls : List α) : List α :=
  calls.foldl (fun st l => addLog l st) []

/-! ## Grouping session documents by folder (`DocumentSimilarity.js`) -/

/-- A document of a similarity session as rendered by the page. -/
structure SessionDoc where
  id : String
  name : String
  folder : Option String
deriving DecidableEq, Repr

/-- `doc.folder || 'Uncategorized'`: the key under which a document is
grouped. -/
def docFolderKey (d : SessionDoc) : String :=
  match d.folder with
  | some f => if f = "" then "Uncategorized" else f
  | none => "Uncategorized"

/-- One step of the `reduce`: a JavaScript object keyed by folder name is
an association list in key-insertion order; an existing key's group is
extended by `push`, a missing key is appended with a fresh one-element
group. -/
def insertDoc : List (String × List SessionDoc) → SessionDoc →
    List (String × List SessionDoc)
  | [], d => [(docFolderKey d, [d])]
  | p :: rest, d =>
      if p.1 = docFolderKey d then (p.1, p.2 ++ [d]) :: rest
      else p :: insertDoc rest d

/-- `documentsByFolder`: `sessionDocuments.reduce(..., {})`. -/
def documentsByFolder (docs : List SessionDoc) :
    List (String × List SessionDoc) :=
  docs.foldl insertDoc []

/-- The keys of a grouping (`Object.keys` in rendering order). -/
def groupKeys (groups : List (String × List SessionDoc)) : List String :=
  groups.map Prod.fst

/-- All documents of a grouping, folder by folder. -/
def groupDocs (groups : List (String × List SessionDoc)) :
    List SessionDoc :=
  (groups.map Prod.snd).flatten

/-! ## Similarity Session Engine (modelled from the spec)

The placement algorithm runs in the backend, whose source is not part of
this repository; only its REST contract and the spec's description of the
algorithm are visible.  The following definitions are modelled from the
spec, section 4.1. -/

/-- Modelled from the spec: an abstract document of the Similarity
Session Engine, identified by id; its embedding enters only through the
similarity function passed to the engine. -/
structure SDoc where
  id : String
deriving DecidableEq, Repr

/-- Modelled from the spec: a folder's representative score for a new
document — the maximum similarity against documents already in that
folder (the spec's chosen deterministic aggregation).  Folders are
nonempty at placement time (spec invariant); for an empty member list the
score is the neutral `0`. -/
def folderScore (sim : SDoc → SDoc → ℚ) (d : SDoc)
    (members : List SDoc) : ℚ :=
  match members.map (sim d) with
  | [] => 0
  | s :: rest => rest.foldl max s

/-- Modelled from the spec: pick the best-scoring folder from the scored
folder list (in creation order); highest score wins, exact ties prefer
the oldest folder. -/
def pickBest : List (String × ℚ) → Option (String × ℚ)
  | [] => none
  | p :: rest =>
      match pickBest rest with
      | none => some p
      | some b => if p.2 < b.2 then some b else some p

/-- Modelled from the spec: append the document to the members of the
named folder. -/
def assignTo (folders : List (String × List SDoc)) (name : String)
    (d : SDoc) : List (String × List SDoc) :=
  folders.map (fun f => if f.1 = name then (f.1, f.2 ++ [d]) else f)

/-- Modelled from the spec: the placement decision of the Similarity
Session Engine.  Session state is the folder list in creation order.
Result: the folder the document was assigned to, whether that folder is
newly created, and the new session state. -/
def placeDocument (sim : SDoc → SDoc → ℚ) (threshold : ℚ)
    (newName : String) (folders : List (String × List SDoc)) (d : SDoc) :
    String × Bool × List (String × List SDoc) :=
  let scored := folders.map (fun f => (f.1, folderScore sim d f.2))
  match pickBest scored with
  | some best =>
      if threshold ≤ best.2 then
        (best.1, false, assignTo folders best.1 d)
      else
        (newName, true, folders ++ [(newName, [d])])
  | none => (newName, true, folders ++ [(newName, [d])])

/-! ## Theorems -/

/-- C1: every listing operation of the API client (`listDocuments`,
`getFolders`, `listSessions`) resolves a failed request to an empty
result (empty array, or `{folders: [], master_bucket: 'unknown'}`)
rather than raising, while every mutating operation (`createFolder`,
`deleteFolder`, `uploadDocument`, `deleteDocument`, `createSession`,
`updateSession`, `deleteSession`, `uploadDocumentToSession`) propagates
an error to the caller and never converts a failure into a success
value. -/
theorem claim_C1 (e : AxiosError) :
    (listDocuments (Except.error e) = Except.ok [] ∧
     getFolders (Except.error e) =
       Except.ok { folders := [], master_bucket := "unknown" } ∧
     listSessions (Except.error e) = Except.ok []) ∧
    (uploadDocument (Except.error e) = Except.error e ∧
     deleteDocument (Except.error e) = Except.error e ∧
     createFolder (Except.error e) =
       Except.error (throwDetail e "Error creating folder") ∧
     deleteFolder (Except.error e) =
       Except.error (throwDetail e "Error deleting folder") ∧
     createSession (Except.error e) =
       Except.error (throwDetail e "Error creating session") ∧
     updateSession (Except.error e) =
       Except.error (throwDetail e "Error updating session") ∧
     deleteSession (Except.error e) =
       Except.error (throwDetail e "Error deleting session") ∧
     uploadDocumentToSession (Except.error e) =
       Except.error (throwDetail e "Error uploading document to session")) := by
  refine ⟨⟨rfl, rfl, rfl⟩, rfl, rfl, rfl, rfl, rfl, rfl, rfl, rfl⟩

/-- C1 witness: a concrete network error — `listDocuments` degrades to
an empty list while `createFolder` surfaces the error message. -/
theorem claim_C1_witness :
    listDocuments
        (Except.error
          { code := none, message := "Network Error", response := none,
            hasRequest := true })
      = Except.ok [] ∧
    createFolder
        (Except.error
          { code := none, message := "Network Error", response := none,
            hasRequest := true })
      = Except.error "Network Error" := by
  refine ⟨(claim_C1 _).1.1, ?_⟩
  rw [(claim_C1
    { code := none, message := "Network Error", response := none,
      hasRequest := true }).2.2.2.1]
  rfl

/-- C3: the body `askQuestion` sends to `POST /ask` always contains
`question` and `model`; it contains `document_ids` precisely when the
`documentIds` argument is a non-null array with at least one element,
and `folder` precisely when the `folder` argument is truthy; both can be
present in the same request. -/
theorem claim_C3 :
    (∀ (q : String) (dids : Option (List String)) (f : Option String)
       (m : String),
      (askPayload q dids f m).question = q ∧
      (askPayload q dids f m).model = m ∧
      ((askPayload q dids f m).document_ids.isSome ↔
        ∃ ids, dids = some ids ∧ 0 < ids.length) ∧
      ((askPayload q dids f m).folder.isSome ↔ isTruthyStr f = true)) ∧
    ((askPayload "q" (some ["doc1"]) (some "legal") "gpt-4").document_ids
        = some ["doc1"] ∧
     (askPayload "q" (some ["doc1"]) (some "legal") "gpt-4").folder
        = some "legal") := by
  refine ⟨fun q dids f m => ⟨rfl, rfl, ?_, ?_⟩, by decide, by decide⟩
  · cases dids with
    | none => simp [askPayload]
    | some ids =>
        cases ids with
        | nil => simp [askPayload]
        | cons a as => simp [askPayload]
  · cases f with
    | none => simp [askPayload, isTruthyStr]
    | some s =>
        by_cases hs : s = "" <;> simp [askPayload, isTruthyStr, hs]

/-- C3 witness: a request with both a non-empty document-id list and a
truthy folder carries both fields. -/
theorem claim_C3_witness :
    (askPayload "q" (some ["doc1"]) (some "legal") "gpt-4").question
      = "q" ∧
    ((askPayload "q" (some ["doc1"]) (some "legal") "gpt-4").document_ids.isSome
      ↔ ∃ ids, (some ["doc1"] : Option (List String)) = some ids ∧
          0 < ids.length) ∧
    ((askPayload "q" (some ["doc1"]) (some "legal") "gpt-4").folder.isSome
      ↔ isTruthyStr (some "legal") = true) :=
  ⟨(claim_C3.1 "q" (some ["doc1"]) (some "legal") "gpt-4").1,
   (claim_C3.1 "q" (some ["doc1"]) (some "legal") "gpt-4").2.2.1,
   (claim_C3.1 "q" (some ["doc1"]) (some "legal") "gpt-4").2.2.2⟩

/-- C8: the multipart body `uploadDocument` sends to
`POST /documents/upload` always contains `file`, `source_name` and
`folder`, and contains `description` exactly when the `description`
argument is a non-empty string. -/
theorem claim_C8 (file sourceName folder description : String) :
    (uploadDocumentForm file sourceName folder description).file = file ∧
    (uploadDocumentForm file sourceName folder description).source_name
      = sourceName ∧
    (uploadDocumentForm file sourceName folder description).folder
      = folder ∧
    ((uploadDocumentForm file sourceName folder description).description.isSome
      ↔ description ≠ "") := by
  refine ⟨rfl, rfl, rfl, ?_⟩
  by_cases h : description = "" <;> simp [uploadDocumentForm, h]

/-- C8 witness: a concrete upload with a non-empty description. -/
theorem claim_C8_witness :
    (uploadDocumentForm "f.pdf" "legal" "legal" "notes").file = "f.pdf" ∧
    (uploadDocumentForm "f.pdf" "legal" "legal" "notes").folder
      = "legal" ∧
    ((uploadDocumentForm "f.pdf" "legal" "legal" "notes").description.isSome
      ↔ "notes" ≠ "") :=
  ⟨(claim_C8 "f.pdf" "legal" "legal" "notes").1,
   (claim_C8 "f.pdf" "legal" "legal" "notes").2.2.1,
   (claim_C8 "f.pdf" "legal" "legal" "notes").2.2.2⟩

/-- C10: the folder selectors on the Document Upload and Question
Answering pages filter out the reserved names `'metadata'` and
`'documents'` from every folder list before rendering. -/
theorem claim_C10 (folders : List String) :
    "metadata" ∉ duFilteredFolders folders ∧
    "documents" ∉ duFilteredFolders folders ∧
    "metadata" ∉ qaUserFolders folders ∧
    "documents" ∉ qaUserFolders folders := by
  refine ⟨?_, ?_, ?_, ?_⟩ <;>
    simp [duFilteredFolders, qaUserFolders, List.mem_filter, CORE_FOLDERS]

/-- C10 witness: a concrete folder list containing both reserved
names. -/
theorem claim_C10_witness :
    "metadata" ∉ duFilteredFolders ["legal", "metadata", "documents"] ∧
    "documents" ∉ qaUserFolders ["legal", "metadata", "documents"] :=
  ⟨(claim_C10 ["legal", "metadata", "documents"]).1,
   (claim_C10 ["legal", "metadata", "documents"]).2.2.2⟩

/-- C4: the error `askQuestion` surfaces distinguishes a timeout (code
`ECONNABORTED` — message containing "The request timed out") from a
connection failure with a request but no response (message containing
"No response received from the server"); when the server responded with
an error status, the server-provided non-empty `detail` string is used
verbatim. -/
theorem claim_C4 :
    (∀ e : AxiosError, e.code = some "ECONNABORTED" →
      containsStr (askQuestionErrorMessage e) "The request timed out") ∧
    (∀ e : AxiosError, e.code ≠ some "ECONNABORTED" → e.response = none →
      e.hasRequest = true →
      containsStr (askQuestionErrorMessage e)
        "No response received from the server") ∧
    (∀ (e : AxiosError) (r : ErrResponse) (d : String),
      e.code ≠ some "ECONNABORTED" → e.response = some r →
      r.detail = some d → d ≠ "" → askQuestionErrorMessage e = d) := by
  refine ⟨fun e h => ?_, fun e h hr hq => ?_, fun e r d h hr hd hne => ?_⟩
  · refine ⟨"",
      ". This could be due to server load or an issue with the OpenAI API.",
      ?_⟩
    simp only [askQuestionErrorMessage, h, if_pos]
    rfl
  · refine ⟨"",
      ". The server may be down or the request timed out.", ?_⟩
    simp only [askQuestionErrorMessage, h, if_neg, hr, hq, if_pos]
    rfl
  · simp only [askQuestionErrorMessage, h, if_neg, hr, hd, hne]
    simp [hne]

/-- C4 witness: the three branches at concrete axios errors. -/
theorem claim_C4_witness :
    containsStr
      (askQuestionErrorMessage
        { code := some "ECONNABORTED", message := "timeout",
          response := none, hasRequest := true })
      "The request timed out" ∧
    containsStr
      (askQuestionErrorMessage
        { code := none, message := "Network Error",
          response := none, hasRequest := true })
      "No response received from the server" ∧
    askQuestionErrorMessage
        { code := none, message := "Request failed",
          response := some { status := 500, statusText := "Internal Server Error",
                             detail := some "OpenAI API error" },
          hasRequest := true }
      = "OpenAI API error" :=
  ⟨claim_C4.1 _ rfl,
   claim_C4.2.1 _ (by decide) rfl rfl,
   claim_C4.2.2 _ _ _ (by decide) rfl rfl (by decide)⟩

/-- C5: on each of the three pages, a submission with a missing required
input sets the user-visible error message and returns without issuing
any API request, all other state unchanged. -/
theorem claim_C5 :
    (∀ (st : QAState) (o : AskOutcome), st.question = "" →
      qaHandleSubmit st o =
        ({ st with error := "Please enter a question" }, false)) ∧
    (∀ (st : QAState) (o : AskOutcome), st.question ≠ "" →
      st.selectedFolder = "" →
      qaHandleSubmit st o =
        ({ st with error := "Please select a folder" }, false)) ∧
    (∀ (st : DUState) (o : UploadOutcome), st.file = none →
      duHandleSubmit st o =
        ({ st with error := "Please select a file to upload" }, false)) ∧
    (∀ (st : DUState) (o : UploadOutcome), st.file ≠ none →
      st.folder = "" →
      duHandleSubmit st o =
        ({ st with error := "Please select a folder" }, false)) ∧
    (∀ st : DSState, st.file = none →
      dsHandleFileUpload st =
        ({ st with error := some "Please select a file to upload" }, false)) ∧
    (∀ st : DSState, st.file ≠ none → st.selectedSession = "" →
      dsHandleFileUpload st =
        ({ st with error := some "Please select a session to upload to" },
          false)) := by
  refine ⟨fun st o h => ?_, fun st o h1 h2 => ?_, fun st o h => ?_,
    fun st o h1 h2 => ?_, fun st h => ?_, fun st h1 h2 => ?_⟩ <;>
    simp [qaHandleSubmit, duHandleSubmit, dsHandleFileUpload, *]

/-- C5 witness: each validation branch at a concrete state. -/
theorem claim_C5_witness :
    (qaHandleSubmit
        { question := "", selectedFolder := "legal",
          selectedModel := "gpt-3.5-turbo", answer := "", error := "",
          loading := false } (AskOutcome.ok "yes") =
      ({ question := "", selectedFolder := "legal",
         selectedModel := "gpt-3.5-turbo", answer := "",
         error := "Please enter a question", loading := false }, false)) ∧
    (qaHandleSubmit
        { question := "what?", selectedFolder := "",
          selectedModel := "gpt-3.5-turbo", answer := "", error := "",
          loading := false } (AskOutcome.ok "yes") =
      ({ question := "what?", selectedFolder := "",
         selectedModel := "gpt-3.5-turbo", answer := "",
         error := "Please select a folder", loading := false }, false)) ∧
    (duHandleSubmit
        { file := none, fileName := "", folder := "legal",
          description := "", error := "", success := "",
          uploading := false } UploadOutcome.ok =
      ({ file := none, fileName := "", folder := "legal",
         description := "", error := "Please select a file to upload",
         success := "", uploading := false }, false)) ∧
    (duHandleSubmit
        { file := some "a.pdf", fileName := "a.pdf", folder := "",
          description := "", error := "", success := "",
          uploading := false } UploadOutcome.ok =
      ({ file := some "a.pdf", fileName := "a.pdf", folder := "",
         description := "", error := "Please select a folder",
         success := "", uploading := false }, false)) ∧
    (dsHandleFileUpload
        { file := none, selectedSession := "s1", error := none,
          success := none, uploading := false } =
      ({ file := none, selectedSession := "s1",
         error := some "Please select a file to upload", success := none,
         uploading := false }, false)) ∧
    (dsHandleFileUpload
        { file := some "a.pdf", selectedSession := "", error := none,
          success := none, uploading := false } =
      ({ file := some "a.pdf", selectedSession := "",
         error := some "Please select a session to upload to",
         success := none, uploading := false }, false)) :=
  ⟨claim_C5.1 _ _ rfl,
   claim_C5.2.1 _ _ (by decide) rfl,
   claim_C5.2.2.1 _ _ rfl,
   claim_C5.2.2.2.1 _ _ (by decide) rfl,
   claim_C5.2.2.2.2.1 _ rfl,
   claim_C5.2.2.2.2.2 _ (by decide) rfl⟩

/-- Every value the threshold slider can produce lies in `[0,1]`. -/
theorem sliderValues_bounds : ∀ v ∈ sliderValues, 0 ≤ v ∧ v ≤ 1 := by
  intro v hv
  fin_cases hv <;> constructor <;> norm_num

/-- C6: every `similarity_threshold` a session-creation request can
carry lies in `[0,1]`: the omitted-argument default is `0.7`, and the
Document Similarity page only ever holds the initial `0.7` or a slider
value from `0.5` to `0.95` in steps of `0.05`. -/
theorem claim_C6 (n d c p : String) (v : ℚ) (h : thresholdReachable v) :
    (0 ≤ (createSessionPayload n (some d) (some v) (some c)
            (some p)).similarity_threshold ∧
     (createSessionPayload n (some d) (some v) (some c)
            (some p)).similarity_threshold ≤ 1) ∧
    ((createSessionPayload n none none none none).similarity_threshold
        = 7 / 10 ∧
     0 ≤ (createSessionPayload n none none none none).similarity_threshold ∧
     (createSessionPayload n none none none none).similarity_threshold ≤ 1) := by
  refine ⟨?_, rfl, by norm_num [createSessionPayload], by norm_num [createSessionPayload]⟩
  rcases h with h | h
  · subst h; constructor <;> norm_num [createSessionPayload]
  · have hb := sliderValues_bounds v h
    simpa [createSessionPayload] using hb

/-- C6 witness: the slider value `0.95` and the default `0.7`. -/
theorem claim_C6_witness :
    thresholdReachable 0.95 ∧
    (0 ≤ (createSessionPayload "s" (some "") (some 0.95) (some "")
            (some "gpt-3.5-turbo")).similarity_threshold ∧
     (createSessionPayload "s" (some "") (some 0.95) (some "")
            (some "gpt-3.5-turbo")).similarity_threshold ≤ 1) ∧
    (createSessionPayload "s" none none none none).similarity_threshold
        = 7 / 10 := by
  have hmem : thresholdReachable 0.95 := by
    refine Or.inr ?_
    simp [sliderValues]
  exact ⟨hmem, (claim_C6 "s" "" "" "gpt-3.5-turbo" 0.95 hmem).1,
    (claim_C6 "s" "" "" "gpt-3.5-turbo" 0.95 hmem).2.1⟩

/-- Truncating the tail before or after appending makes no difference. -/
theorem take_append_take {α : Type} (n : ℕ) (a b : List α) :
    (a ++ b.take n).take n = (a ++ b).take n := by
  rw [List.take_append_eq_append_take, List.take_append_eq_append_take,
    List.take_take, Nat.min_eq_left (Nat.sub_le n a.length)]

/-- Folding `addLog` over a call sequence from a truncated start is the
truncation of the reversed calls prepended to the start. -/
theorem foldl_addLog {α : Type} (calls : List α) :
    ∀ st : List α,
      calls.foldl (fun s l => addLog l s) (st.take 50)
        = (calls.reverse ++ st).take 50 := by
  induction calls with
  | nil => intro st; simp
  | cons l ls ih =>
      intro st
      have h1 : addLog l (st.take 50) = (l :: st).take 50 :=
        take_append_take 50 [l] st
      calc (l :: ls).foldl (fun s l => addLog l s) (st.take 50)
          = ls.foldl (fun s l => addLog l s) ((l :: st).take 50) := by
            rw [List.foldl_cons, h1]
        _ = (ls.reverse ++ (l :: st)).take 50 := ih (l :: st)
        _ = ((l :: ls).reverse ++ st).take 50 := by
            simp [List.append_assoc]

/-- The logs list after any call sequence is the reversed sequence
truncated to 50. -/
theorem logsAfter_eq {α : Type} (calls : List α) :
    logsAfter calls = calls.reverse.take 50 := by
  have h := foldl_addLog calls ([] : List α)
  simpa [logsAfter] using h

/-- C9: after any sequence of `addLog` calls the logs list holds at most
50 entries, each new entry is prepended (the most recently added log is
first), and entries beyond 50 — the oldest — are discarded. -/
theorem claim_C9 {α : Type} (calls : List α) :
    (logsAfter calls).length ≤ 50 ∧
    logsAfter calls = calls.reverse.take 50 ∧
    (∀ l : α, logsAfter (calls ++ [l]) = (l :: logsAfter calls).take 50) ∧
    (∀ l : α, (logsAfter (calls ++ [l])).head? = some l) := by
  refine ⟨?_, logsAfter_eq calls, fun l => ?_, fun l => ?_⟩
  · rw [logsAfter_eq]; exact List.length_take_le 50 _
  · rw [logsAfter_eq, logsAfter_eq, List.reverse_append]
    simpa using (take_append_take 50 [l] calls.reverse).symm
  · rw [logsAfter_eq, List.reverse_append]
    simp

/-- C9 witness: a concrete call sequence; the most recent entry is
first. -/
theorem claim_C9_witness :
    (logsAfter [1, 2, 3]).length ≤ 50 ∧
    (logsAfter ([1, 2, 3] ++ [4])).head? = some 4 :=
  ⟨(claim_C9 [1, 2, 3]).1, (claim_C9 [1, 2, 3]).2.2.2 4⟩

/-- Inserting a document adds its key to the grouping (or leaves the
keys unchanged when the key is already present). -/
theorem mem_groupKeys_insertDoc (d : SessionDoc)
    (acc : List (String × List SessionDoc)) (x : String) :
    x ∈ groupKeys (insertDoc acc d) ↔
      x ∈ groupKeys acc ∨ x = docFolderKey d := by
  induction acc with
  | nil => simp [insertDoc, groupKeys]
  | cons p rest ih =>
      simp only [insertDoc]
      by_cases h : p.1 = docFolderKey d
      · rw [if_pos h]
        simp only [groupKeys, List.map_cons, List.mem_cons]
        constructor
        · rintro (hx | hx)
          · exact Or.inl (Or.inl hx)
          · exact Or.inl (Or.inr hx)
        · rintro ((hx | hx) | hx)
          · exact Or.inl hx
          · exact Or.inr hx
          · exact Or.inl (hx.trans h.symm)
      · rw [if_neg h]
        simp only [groupKeys, List.map_cons, List.mem_cons] at ih ⊢
        rw [ih]
        tauto

/-- Inserting a document preserves distinctness of the group keys. -/
theorem nodup_groupKeys_insertDoc (d : SessionDoc) :
    ∀ acc : List (String × List SessionDoc), (groupKeys acc).Nodup →
      (groupKeys (insertDoc acc d)).Nodup := by
  intro acc
  induction acc with
  | nil => intro _; simp [insertDoc, groupKeys]
  | cons p rest ih =>
      intro h
      simp only [groupKeys, List.map_cons, List.nodup_cons] at h
      obtain ⟨hp, hrest⟩ := h
      simp only [insertDoc]
      by_cases hk : p.1 = docFolderKey d
      · rw [if_pos hk]
        simp only [groupKeys, List.map_cons, List.nodup_cons]
        exact ⟨hp, hrest⟩
      · rw [if_neg hk]
        simp only [groupKeys, List.map_cons, List.nodup_cons]
        refine ⟨fun hmem => ?_, ih hrest⟩
        rcases (mem_groupKeys_insertDoc d rest p.1).1 hmem with hm | hm
        · exact hp hm
        · exact hk hm

/-- Inserting a document preserves the invariant that every group holds
only documents whose key is the group's key. -/
theorem memkey_insertDoc (d : SessionDoc) :
    ∀ acc : List (String × List SessionDoc),
      (∀ q ∈ acc, ∀ x ∈ q.2, docFolderKey x = q.1) →
      ∀ q ∈ insertDoc acc d, ∀ x ∈ q.2, docFolderKey x = q.1 := by
  intro acc
  induction acc with
  | nil =>
      intro _ q hq x hx
      simp only [insertDoc, List.mem_singleton] at hq
      subst hq
      simp only [List.mem_singleton] at hx
      subst hx
      rfl
  | cons p rest ih =>
      intro h q hq x hx
      simp only [insertDoc] at hq
      by_cases hk : p.1 = docFolderKey d
      · rw [if_pos hk] at hq
        rcases List.mem_cons.1 hq with hq | hq
        · subst hq
          rcases List.mem_append.1 hx with hx1 | hx1
          · exact h p (List.mem_cons_self p rest) x hx1
          · rw [List.mem_singleton] at hx1
            subst hx1
            exact hk.symm
        · exact h q (List.mem_cons_of_mem p hq) x hx
      · rw [if_neg hk] at hq
        rcases List.mem_cons.1 hq with hq | hq
        · exact h q (List.mem_cons.2 (Or.inl hq)) x hx
        · exact ih (fun r hr => h r (List.mem_cons_of_mem p hr)) q hq x hx

/-- Inserting a document adds exactly that document (as a multiset) to
the grouped documents. -/
theorem groupDocs_insertDoc (d : SessionDoc) :
    ∀ acc : List (String × List SessionDoc),
      List.Perm (groupDocs (insertDoc acc d)) (groupDocs acc ++ [d]) := by
  intro acc
  induction acc with
  | nil => simp [insertDoc, groupDocs]
  | cons p rest ih =>
      simp only [insertDoc]
      by_cases hk : p.1 = docFolderKey d
      · rw [if_pos hk]
        simp only [groupDocs, List.map_cons, List.flatten_cons]
        rw [List.append_assoc, List.append_assoc]
        exact List.Perm.append_left p.2 List.perm_append_comm
      · rw [if_neg hk]
        simp only [groupDocs, List.map_cons, List.flatten_cons]
        rw [List.append_assoc]
        exact List.Perm.append_left p.2 ih

/-- Folding `insertDoc` preserves distinctness of the group keys. -/
theorem foldl_insertDoc_nodup :
    ∀ (docs : List SessionDoc) (acc : List (String × List SessionDoc)),
      (groupKeys acc).Nodup →
      (groupKeys (docs.foldl insertDoc acc)).Nodup := by
  intro docs
  induction docs with
  | nil => intro acc h; simpa using h
  | cons d ds ih =>
      intro acc h
      exact ih _ (nodup_groupKeys_insertDoc d acc h)

/-- Folding `insertDoc` preserves the group-key invariant. -/
theorem foldl_insertDoc_memkey :
    ∀ (docs : List SessionDoc) (acc : List (String × List SessionDoc)),
      (∀ q ∈ acc, ∀ x ∈ q.2, docFolderKey x = q.1) →
      ∀ q ∈ docs.foldl insertDoc acc, ∀ x ∈ q.2, docFolderKey x = q.1 := by
  intro docs
  induction docs with
  | nil => intro acc h; simpa using h
  | cons d ds ih =>
      intro acc h
      exact ih _ (memkey_insertDoc d acc h)

/-- Folding `insertDoc` appends exactly the folded documents (as a
multiset) to the grouped documents. -/
theorem foldl_insertDoc_perm :
    ∀ (docs : List SessionDoc) (acc : List (String × List SessionDoc)),
      List.Perm (groupDocs (docs.foldl insertDoc acc))
        (groupDocs acc ++ docs) := by
  intro docs
  induction docs with
  | nil => intro acc; simp
  | cons d ds ih =>
      intro acc
      have h1 := ih (insertDoc acc d)
      have h2 : List.Perm (groupDocs (insertDoc acc d) ++ ds)
          ((groupDocs acc ++ [d]) ++ ds) :=
        (groupDocs_insertDoc d acc).append_right ds
      have h3 := h1.trans h2
      rw [List.append_assoc] at h3
      simpa using h3

/-- C7: `documentsByFolder` is a partition of the session documents:
the grouped documents are a permutation of the input (so the total count
across groups equals the input length), group keys are pairwise
distinct, every group holds only documents keyed to it (`folder`, or
`'Uncategorized'` when the folder field is absent or falsy), and every
input document is found in the group carrying its key. -/
theorem claim_C7 (docs : List SessionDoc) :
    List.Perm (groupDocs (documentsByFolder docs)) docs ∧
    (groupDocs (documentsByFolder docs)).length = docs.length ∧
    (groupKeys (documentsByFolder docs)).Nodup ∧
    (∀ q ∈ documentsByFolder docs, ∀ x ∈ q.2, docFolderKey x = q.1) ∧
    (∀ d ∈ docs, ∃ g, (docFolderKey d, g) ∈ documentsByFolder docs ∧
      d ∈ g) := by
  have hperm : List.Perm (groupDocs (documentsByFolder docs)) docs := by
    have h := foldl_insertDoc_perm docs []
    simpa [documentsByFolder, groupDocs] using h
  have hnodup := foldl_insertDoc_nodup docs [] (by simp [groupKeys])
  have hkey := foldl_insertDoc_memkey docs [] (by simp)
  refine ⟨hperm, hperm.length_eq, hnodup, hkey, ?_⟩
  intro d hd
  have hdj : d ∈ groupDocs (documentsByFolder docs) := hperm.mem_iff.2 hd
  simp only [groupDocs, List.mem_flatten, List.mem_map] at hdj
  obtain ⟨m, ⟨q, hq, hm⟩, hdm⟩ := hdj
  subst hm
  refine ⟨q.2, ?_, hdm⟩
  have hk : docFolderKey d = q.1 := hkey q hq d hdm
  rw [hk]
  exact hq

/-- C7 witness: a concrete three-document session, two documents sharing
a folder and one uncategorized. -/
theorem claim_C7_witness :
    documentsByFolder
        [⟨"1", "a.pdf", some "folder_1"⟩, ⟨"2", "b.pdf", none⟩,
         ⟨"3", "c.pdf", some "folder_1"⟩] =
      [("folder_1",
        [⟨"1", "a.pdf", some "folder_1"⟩, ⟨"3", "c.pdf", some "folder_1"⟩]),
       ("Uncategorized", [⟨"2", "b.pdf", none⟩])] ∧
    (∃ g, (docFolderKey ⟨"3", "c.pdf", some "folder_1"⟩, g) ∈
        documentsByFolder
          [⟨"1", "a.pdf", some "folder_1"⟩, ⟨"2", "b.pdf", none⟩,
           ⟨"3", "c.pdf", some "folder_1"⟩] ∧
      (⟨"3", "c.pdf", some "folder_1"⟩ : SessionDoc) ∈ g) :=
  ⟨by decide,
   (claim_C7
      [⟨"1", "a.pdf", some "folder_1"⟩, ⟨"2", "b.pdf", none⟩,
       ⟨"3", "c.pdf", some "folder_1"⟩]).2.2.2.2
     ⟨"3", "c.pdf", some "folder_1"⟩ (by decide)⟩

/-- `pickBest` fails only on the empty list. -/
theorem pickBest_eq_none :
    ∀ l : List (String × ℚ), pickBest l = none → l = [] := by
  intro l
  cases l with
  | nil => intro _; rfl
  | cons p rest =>
      intro h
      rcases hr : pickBest rest with _ | b
      · simp [pickBest, hr] at h
      · simp only [pickBest, hr] at h
        split at h <;> simp at h

/-- `pickBest` returns an element of its input. -/
theorem pickBest_mem :
    ∀ (l : List (String × ℚ)) (b : String × ℚ), pickBest l = some b →
      b ∈ l := by
  intro l
  induction l with
  | nil => intro b h; simp [pickBest] at h
  | cons p rest ih =>
      intro b h
      rcases hr : pickBest rest with _ | b' <;>
        simp only [pickBest, hr, Option.some.injEq] at h
      · rw [← h]
        exact List.mem_cons_self p rest
      · by_cases hlt : p.2 < b'.2
        · rw [if_pos hlt, Option.some.injEq] at h
          rw [← h]
          exact List.mem_cons_of_mem p (ih b' hr)
        · rw [if_neg hlt, Option.some.injEq] at h
          rw [← h]
          exact List.mem_cons_self p rest

/-- `pickBest` returns a maximal score. -/
theorem pickBest_le :
    ∀ (l : List (String × ℚ)) (b : String × ℚ), pickBest l = some b →
      ∀ q ∈ l, q.2 ≤ b.2 := by
  intro l
  induction l with
  | nil => intro b h; simp [pickBest] at h
  | cons p rest ih =>
      intro b h q hq
      rcases hr : pickBest rest with _ | b' <;>
        simp only [pickBest, hr, Option.some.injEq] at h
      · have hrest : rest = [] := pickBest_eq_none rest hr
        subst hrest
        rcases List.mem_cons.1 hq with hq1 | hq1
        · rw [hq1, ← h]
        · cases hq1
      · by_cases hlt : p.2 < b'.2
        · rw [if_pos hlt, Option.some.injEq] at h
          rcases List.mem_cons.1 hq with hq1 | hq1
          · rw [hq1, ← h]
            exact le_of_lt hlt
          · exact ih b (h ▸ hr) q hq1
        · rw [if_neg hlt, Option.some.injEq] at h
          rcases List.mem_cons.1 hq with hq1 | hq1
          · rw [hq1, ← h]
          · rw [← h]
            exact le_trans (ih b' hr q hq1) (le_of_not_lt hlt)

/-- C2 (modelled from the spec; the backend placement algorithm is not
part of this repository): if the best per-folder maximum-similarity
score reaches the session threshold, the document is assigned to that
best-scoring existing folder (no new folder is created); otherwise —
including the no-existing-folder case — exactly one new folder is
created with the document as its sole first member. -/
theorem claim_C2 (sim : SDoc → SDoc → ℚ) (t : ℚ) (newName : String)
    (folders : List (String × List SDoc)) (d : SDoc) :
    (∀ best,
      pickBest (folders.map (fun f => (f.1, folderScore sim d f.2)))
        = some best →
      t ≤ best.2 →
        best ∈ folders.map (fun f => (f.1, folderScore sim d f.2)) ∧
        (∀ q ∈ folders.map (fun f => (f.1, folderScore sim d f.2)),
          q.2 ≤ best.2) ∧
        placeDocument sim t newName folders d
          = (best.1, false, assignTo folders best.1 d)) ∧
    (∀ best,
      pickBest (folders.map (fun f => (f.1, folderScore sim d f.2)))
        = some best →
      best.2 < t →
        placeDocument sim t newName folders d
          = (newName, true, folders ++ [(newName, [d])])) ∧
    (pickBest (folders.map (fun f => (f.1, folderScore sim d f.2)))
        = none →
      placeDocument sim t newName folders d
        = (newName, true, folders ++ [(newName, [d])])) := by
  refine ⟨fun best hp ht => ?_, fun best hp ht => ?_, fun hp => ?_⟩
  · refine ⟨pickBest_mem _ best hp, pickBest_le _ best hp, ?_⟩
    simp only [placeDocument, hp, if_pos ht]
  · simp only [placeDocument, hp, if_neg (not_le_of_lt ht)]
  · simp only [placeDocument, hp]

/-- C2 witness: one existing folder whose member scores 0.75 against the
new document under a 0.7 threshold — the document joins it; and under a
0.8 threshold — a new folder is created instead. -/
theorem claim_C2_witness :
    (placeDocument (fun _ _ => 0.75) 0.7 "folder_2"
        [("folder_1", [⟨"A"⟩])] ⟨"B"⟩
      = ("folder_1", false,
         assignTo [("folder_1", [⟨"A"⟩])] "folder_1" ⟨"B"⟩)) ∧
    (placeDocument (fun _ _ => 0.75) 0.8 "folder_2"
        [("folder_1", [⟨"A"⟩])] ⟨"B"⟩
      = ("folder_2", true, [("folder_1", [⟨"A"⟩]), ("folder_2", [⟨"B"⟩])])) :=
  ⟨((claim_C2 (fun _ _ => 0.75) 0.7 "folder_2" [("folder_1", [⟨"A"⟩])]
        ⟨"B"⟩).1 ("folder_1", 0.75) (by norm_num [pickBest, folderScore])
        (by norm_num)).2.2,
   (claim_C2 (fun _ _ => 0.75) 0.8 "folder_2" [("folder_1", [⟨"A"⟩])]
        ⟨"B"⟩).2.1 ("folder_1", 0.75) (by norm_num [pickBest, folderScore])
        (by norm_num)⟩

end DocProcessor
